import Mathlib

/-!
Shallow embedding of the core of `main.py` (Etsy → Luca e-Arşiv sync engine):
the money normalizer (`money_to_float`), the payload mapper
(`build_luca_payload`), the order and invoice stores (`db_upsert_order`,
`db_upsert_invoice`) and the sync orchestrator
(`sync_orders_and_maybe_invoice`).

Modelling conventions:
* Python floats are modelled as exact rationals (`ℚ`); `round(x, 2)` is
  modelled as exact round-half-to-even at two fractional digits (`round2`).
  No computation verified here ever hits a tie or a value where binary
  floating point and exact arithmetic disagree at the compared precision.
* Python `None`/absent dict keys are `Option.none`; Python `a or b`
  falsiness chains are explicit (`strOr`, `intOr`, `moneyOr`).
* Marketplace money fields on receipts are structured `{amount, divisor,
  currency_code}` objects (`MoneyDict`), matching the marketplace API
  schema the code consumes; `money_to_float` additionally accepts plain
  numbers (`PyMoney.num`), as its source does.
* Code that can raise returns `Except String α`; remote HTTP calls are an
  oracle (`SyncEnv`) giving each call either a response or a raised
  exception message.
* SQLite tables are maps from primary key to row; the two wall clocks
  (`time.time()` and `now_iso()`) are a single `now : ℤ` parameter, and the
  local ISO timestamp columns store that integer.
-/

namespace EtsyLuca

/-- Half-to-even rounding of `q * 100` to an integer, i.e. Python
`round(q, 2)` scaled by 100 (exact-arithmetic idealization of float
rounding). -/
def round2Int (q : ℚ) : ℤ :=
  let x := q * 100
  let f := ⌊x⌋
  let r := x - f
  if r < 1/2 then f
  else if 1/2 < r then f + 1
  else if f % 2 = 0 then f else f + 1

/-- Python `round(q, 2)` on exact values. -/
def round2 (q : ℚ) : ℚ := (round2Int q : ℚ) / 100

/-- `q` has at most two fractional digits. -/
def TwoDec (q : ℚ) : Prop := ∃ n : ℤ, q = (n : ℚ) / 100

/-- Python `a or b` where `a` is an optional string: `None` and `""` are
falsy. -/
def strOr (a b : Option String) : Option String :=
  match a with
  | some s => if s = "" then b else some s
  | none => b

/-- Python `a or b` where `a` is an optional integer: `None` and `0` are
falsy. -/
def intOr (a b : Option ℤ) : Option ℤ :=
  match a with
  | some n => if n = 0 then b else some n
  | none => b

/-- A structured marketplace money object `{amount, divisor,
currency_code}` (any key may be absent). -/
structure MoneyDict where
  amount : Option ℚ
  divisor : Option ℚ
  currency_code : Option String
deriving DecidableEq, Repr

/-- A value fed to `money_to_float`: either a plain number or a structured
money object. -/
inductive PyMoney where
  | num (x : ℚ)
  | dict (d : MoneyDict)
deriving DecidableEq, Repr

/-- Python truthiness of a money value: `0` is falsy, and an all-absent
structured object is the empty dict `{}`, which is falsy. -/
def PyMoney.truthy : PyMoney → Bool
  | .num x => x ≠ 0
  | .dict d => d.amount.isSome || d.divisor.isSome || d.currency_code.isSome

/-- Python `a or b` on optional money values. -/
def moneyOr (a b : Option PyMoney) : Option PyMoney :=
  match a with
  | some m => if m.truthy then some m else b
  | none => b

/-- `main.py` `money_to_float` (lines 129-136): `None → 0.0`; a plain
number is returned as a float unchanged; a structured value is
`round(amount/divisor, 2)` with absent amount defaulting to 0 and absent
or zero divisor defaulting to 100. -/
def money_to_float : Option PyMoney → ℚ
  | Option.none => 0
  | some (.num x) => x
  | some (.dict d) =>
      let amount := d.amount.getD 0
      let divisor0 := d.divisor.getD 100
      let divisor := if divisor0 = 0 then 100 else divisor0
      round2 (amount / divisor)

/-- Python `str(x)` for an optional integer id: `str(None) = "None"`. -/
def strOfOptInt : Option ℤ → String
  | some n => toString n
  | none => "None"

/-- Python string slice `s[:n]`. -/
def truncStr (n : ℕ) (s : String) : String := (s.toList.take n).asString

/-- Python `s.strip()` (whitespace at both ends; the data handled here is
ASCII). -/
def pyStrip (s : String) : String :=
  (((s.toList.dropWhile Char.isWhitespace).reverse.dropWhile
    Char.isWhitespace).reverse).asString

/-- Python `s.upper()` on ASCII data. -/
def pyUpper (s : String) : String := (s.toList.map Char.toUpper).asString

/-- Python `s.lower()` on ASCII data. -/
def pyLower (s : String) : String := (s.toList.map Char.toLower).asString

/-- `CURRENCY_FALLBACK` environment default (line 26). -/
def DEFAULT_CURRENCY : String := "TRY"

/-- A transaction (line item) record as read from the marketplace
transactions endpoint. -/
structure Tx where
  quantity : Option ℚ
  price : Option PyMoney
  amount_paid : Option PyMoney
  title : Option String
  transaction_id : Option ℤ
deriving DecidableEq, Repr

/-- A receipt (order) record as read from the marketplace receipts
endpoint; only the keys the modelled code reads. -/
structure Receipt where
  receipt_id : Option ℤ
  name : Option String
  buyer_email : Option String
  phone : Option String
  first_line : Option String
  city : Option String
  state : Option String
  zip : Option String
  country_name : Option String
  country_iso : Option String
  grandtotal : Option MoneyDict
  total_price : Option MoneyDict
  status : Option String
  updated_timestamp : Option ℤ
  last_modified_tsz : Option ℤ
  created_timestamp : Option ℤ
  seller_user_id : Option ℤ
deriving DecidableEq, Repr

/-- The settings rows the modelled code reads (each value a string; `none`
models a missing key). -/
structure SettingsMap where
  default_kdv_rate : Option String
  currency_fallback : Option String
  luca_company_id : Option String
  auto_invoice : Option String
deriving DecidableEq, Repr

/-- Python `float(s)` on the plain decimal strings this program stores in
settings: optional sign, then digits with an optional fractional part
(`"12"`, `"-3.5"`, `"1."`, `".5"`); every other string (in particular
`""`) raises ValueError, modelled as `none`. (Exponent, infinity and nan
literals are not modelled; the program never stores them.) -/
def pyFloat? (s : String) : Option ℚ :=
  let cs := s.toList
  let signed : ℚ × List Char :=
    match cs with
    | '-' :: rest => (-1, rest)
    | '+' :: rest => (1, rest)
    | _ => (1, cs)
  let sgn := signed.1
  let body := signed.2
  let digitsVal : List Char → ℕ := fun ds =>
    ds.foldl (fun a c => a * 10 + (c.toNat - 48)) 0
  match body.splitOn '.' with
  | [ip] =>
      if !ip.isEmpty && ip.all Char.isDigit then
        some (sgn * (digitsVal ip : ℚ))
      else none
  | [ip, fp] =>
      if ip.all Char.isDigit && fp.all Char.isDigit &&
          !(ip.isEmpty && fp.isEmpty) then
        some (sgn * ((digitsVal ip : ℚ) + (digitsVal fp : ℚ) / (10 ^ fp.length : ℕ)))
      else none
  | _ => none

/-- Line 223: `float(st.get("default_kdv_rate") or "0")`; `none` models a
raised ValueError. -/
def kdvRate (st : SettingsMap) : Option ℚ :=
  pyFloat? ((strOr st.default_kdv_rate (some "0")).getD "0")

/-- Line 281: `float(st["luca_company_id"])`; `none` models a raised
KeyError (missing key) or ValueError (unparsable value, e.g. `""`). -/
def companyIdVal (st : SettingsMap) : Option ℚ :=
  st.luca_company_id.bind pyFloat?

/-- Currency resolution (lines 224-226): grand-total currency, else
total-price currency, else the `currency_fallback` setting, else the
hardcoded fallback; `""` is falsy at every link. -/
def payloadCurrency (st : SettingsMap) (receipt : Receipt) : String :=
  (strOr (receipt.grandtotal.bind MoneyDict.currency_code)
    (strOr (receipt.total_price.bind MoneyDict.currency_code)
      (strOr st.currency_fallback (some DEFAULT_CURRENCY)))).getD ""

/-- Line 258 / 318: `receipt.get("grandtotal") or receipt.get("total_price")`
as the argument of `money_to_float`. -/
def receiptGrand (receipt : Receipt) : Option PyMoney :=
  moneyOr (receipt.grandtotal.map PyMoney.dict) (receipt.total_price.map PyMoney.dict)

/-- Line 272: `int(receipt.get("updated_timestamp") or
receipt.get("created_timestamp") or time.time())`. -/
def payloadTs (now : ℤ) (receipt : Receipt) : ℤ :=
  (intOr receipt.updated_timestamp (intOr receipt.created_timestamp (some now))).getD now

/-- One product line of the submission payload. -/
structure Line where
  productName : String
  quantity : ℚ
  unitPrice : ℚ
  vatRate : ℚ
  vatAmount : ℚ
  lineExtensionAmount : ℚ
deriving DecidableEq, Repr, Inhabited

/-- The receiver address block of the payload. -/
structure Address where
  street : String
  town : String
  cityName : String
  postalCode : String
  countryName : String
  telephoneNumber : String
  email : String
deriving DecidableEq, Repr, Inhabited

/-- The invoicing-provider submission payload (`InvoiceDate`,
`InvoiceTime`, `OrderDate`, `PaymentDate` and `SendingDate` are UTC
formattings of the single epoch `invoiceTs`, kept here as the epoch). -/
structure Payload where
  recipientType : String
  invoiceNumber : String
  idFaturaExternal : String
  companyId : ℚ
  scenarioType : String
  invoiceTs : ℤ
  invoiceType : ℤ
  orderNumber : String
  receiverName : String
  receiverTaxCode : String
  address : Address
  products : List Line
  currencyCode : String
  totalLineExtensionAmount : ℚ
  totalVATAmount : ℚ
  totalTaxInclusiveAmount : ℚ
  totalPayableAmount : ℚ
  sendMailAutomatically : Bool
  webAddress : String
  paymentMediatorName : String
  otherPaymentType : String
deriving DecidableEq, Repr, Inhabited

/-- One payload line for a transaction (lines 244-256). -/
def lineOf (kdv : ℚ) (receipt : Receipt) (t : Tx) : Line :=
  let qty := t.quantity.getD 1
  let unit := money_to_float
    (moneyOr t.price (moneyOr t.amount_paid (receipt.total_price.map PyMoney.dict)))
  let line_net := round2 (qty * unit)
  { productName := (strOr t.title
      (some ("Etsy Item #" ++ strOfOptInt t.transaction_id))).getD ""
    quantity := qty
    unitPrice := unit
    vatRate := kdv
    vatAmount := round2 (line_net * kdv / 100)
    lineExtensionAmount := line_net }

/-- The payload `build_luca_payload` assembles once the tax rate `kdv` and
company id `cid` have been parsed (lines 224-309). -/
def payloadOf (kdv cid : ℚ) (st : SettingsMap) (now : ℤ) (receipt : Receipt)
    (txs : List Tx) : Payload :=
  let currency := payloadCurrency st receipt
  let buyer_name := pyStrip ((strOr receipt.name (some "Etsy Buyer")).getD "")
  let email := (strOr receipt.buyer_email (some "")).getD ""
  let phone := (strOr receipt.phone (some "")).getD ""
  let addr : Address :=
    { street := truncStr 250 (receipt.first_line.getD "")
      town := truncStr 60 (receipt.city.getD "")
      cityName := truncStr 60 ((strOr receipt.state (strOr receipt.city (some ""))).getD "")
      postalCode := (strOr receipt.zip (some "")).getD ""
      countryName := (strOr receipt.country_name
        (strOr receipt.country_iso (some ""))).getD ""
      telephoneNumber := phone
      email := email }
  let linesAndNet : List Line × ℚ :=
    if txs.isEmpty then
      let grand := money_to_float (receiptGrand receipt)
      let total_net := round2 grand
      ([{ productName := "Etsy Order #" ++ strOfOptInt receipt.receipt_id
          quantity := 1
          unitPrice := total_net
          vatRate := kdv
          vatAmount := round2 (total_net * kdv / 100)
          lineExtensionAmount := total_net }], total_net)
    else
      let ls := txs.map (lineOf kdv receipt)
      (ls, (ls.map Line.lineExtensionAmount).sum)
  let lines := linesAndNet.1
  let total_net := linesAndNet.2
  let total_vat := round2 (total_net * kdv / 100)
  let total_gross := round2 (total_net + total_vat)
  { recipientType := "NONE"
    invoiceNumber := ""
    idFaturaExternal := strOfOptInt receipt.receipt_id
    companyId := cid
    scenarioType := "None"
    invoiceTs := payloadTs now receipt
    invoiceType := 1
    orderNumber := strOfOptInt receipt.receipt_id
    receiverName := buyer_name
    receiverTaxCode := ""
    address := addr
    products := lines
    currencyCode := currency
    totalLineExtensionAmount := total_net
    totalVATAmount := total_vat
    totalTaxInclusiveAmount := total_gross
    totalPayableAmount := total_gross
    sendMailAutomatically := true
    webAddress := "https://www.etsy.com/shop/" ++
      (match receipt.seller_user_id with
       | some n => toString n
       | none => "")
    paymentMediatorName := "Etsy"
    otherPaymentType := "Etsy Payments" }

/-- `main.py` `build_luca_payload` (lines 222-309). A raised Python
exception is `Except.error`: the only raise sites are the `float`
conversion of the tax-rate setting (line 223) and of the company id
(line 281). -/
def build_luca_payload (st : SettingsMap) (now : ℤ) (receipt : Receipt)
    (txs : List Tx) : Except String Payload :=
  match kdvRate st with
  | Option.none => .error "ValueError: default_kdv_rate"
  | some kdv =>
    match companyIdVal st with
    | Option.none => .error "ValueError: luca_company_id"
    | some cid => .ok (payloadOf kdv cid st now receipt txs)

/-- A row of the `orders` table. -/
structure OrderRow where
  receipt_id : String
  buyer_name : String
  total : ℚ
  currency : String
  status : String
  updated_epoch : ℤ
  raw_json : Receipt
  created_at : ℤ
  updated_at : ℤ
deriving DecidableEq, Repr

/-- The `orders` table, keyed by `receipt_id`. -/
abbrev OrdersDB := String → Option OrderRow

/-- Currency resolution of `db_upsert_order` (lines 315-317): like the
mapper but the final fallback is `db_get_setting("currency_fallback",
DEFAULT_CURRENCY)`, whose value is used even when it is `""`. -/
def orderCurrency (st : SettingsMap) (rcpt : Receipt) : String :=
  (strOr (rcpt.grandtotal.bind MoneyDict.currency_code)
    (strOr (rcpt.total_price.bind MoneyDict.currency_code)
      (some (st.currency_fallback.getD DEFAULT_CURRENCY)))).getD ""

/-- Lines 320 and 458: `int(rcpt.get("updated_timestamp") or
rcpt.get("last_modified_tsz") or rcpt.get("created_timestamp") or
time.time())`. -/
def receiptUpdated (now : ℤ) (rcpt : Receipt) : ℤ :=
  (intOr rcpt.updated_timestamp (intOr rcpt.last_modified_tsz
    (intOr rcpt.created_timestamp (some now)))).getD now

/-- The row values `db_upsert_order` computes from a receipt
(lines 313-321). -/
def orderRowOf (st : SettingsMap) (now : ℤ) (rcpt : Receipt) : OrderRow :=
  { receipt_id := strOfOptInt rcpt.receipt_id
    buyer_name := pyStrip ((strOr rcpt.name (some "Etsy Buyer")).getD "")
    total := money_to_float (receiptGrand rcpt)
    currency := orderCurrency st rcpt
    status := pyUpper ((strOr rcpt.status (some "")).getD "")
    updated_epoch := receiptUpdated now rcpt
    raw_json := rcpt
    created_at := now
    updated_at := now }

/-- `main.py` `db_upsert_order` (lines 312-336): INSERT, or ON CONFLICT
UPDATE every column except `receipt_id` and `created_at`. -/
def db_upsert_order (st : SettingsMap) (now : ℤ) (rcpt : Receipt)
    (db : OrdersDB) : OrdersDB :=
  let rid := strOfOptInt rcpt.receipt_id
  let row := orderRowOf st now rcpt
  fun k =>
    if k = rid then
      some (match db rid with
        | some old => { row with receipt_id := old.receipt_id,
                                 created_at := old.created_at }
        | none => row)
    else db k

/-- The keyword arguments of a `db_upsert_invoice` call; a `none` field is
a keyword the caller did not pass (`fields.get` then yields Python
`None`). -/
structure InvFields where
  ettn : Option String
  invoice_number : Option String
  url : Option String
  status : Option String
  error : Option String
deriving DecidableEq, Repr

/-- A row of the `invoices` table (every non-key column nullable). -/
structure InvRow where
  receipt_id : String
  ettn : Option String
  invoice_number : Option String
  url : Option String
  status : Option String
  error : Option String
  created_at : ℤ
  updated_at : ℤ
deriving DecidableEq, Repr

/-- The `invoices` table, keyed by `receipt_id`. -/
abbrev InvDB := String → Option InvRow

/-- `main.py` `db_upsert_invoice` (lines 364-383): if the row exists,
UPDATE sets `ettn`, `invoice_number`, `url`, `status`, `error` all to
`fields.get(...)` (so an omitted keyword overwrites the column with NULL)
and refreshes `updated_at`; otherwise INSERT with
`fields.get("status") or "NONE"` as status. -/
def db_upsert_invoice (receipt_id : String) (fields : InvFields) (now : ℤ)
    (db : InvDB) : InvDB :=
  fun k =>
    if k = receipt_id then
      some (match db receipt_id with
        | some old =>
            { receipt_id := old.receipt_id
              ettn := fields.ettn
              invoice_number := fields.invoice_number
              url := fields.url
              status := fields.status
              error := fields.error
              created_at := old.created_at
              updated_at := now }
        | none =>
            { receipt_id := receipt_id
              ettn := fields.ettn
              invoice_number := fields.invoice_number
              url := fields.url
              status := strOr fields.status (some "NONE")
              error := fields.error
              created_at := now
              updated_at := now })
    else db k

/-- The JSON body returned by the save-archive endpoint (only the keys the
code reads). -/
structure SaveResp where
  Ettn : Option String
  ETTN : Option String
  InvoiceNumber : Option String
deriving DecidableEq, Repr

/-- Oracle for the remote world during one sync cycle: each call either
returns a response or raises (`Except.error` carries `str(e)`).
`saveArchive` is keyed by the submitted payload; `sendArchive` and
`getUrl` by the ETTN; `getTxs` by the receipt id. -/
structure SyncEnv where
  etsyToken : Except String String
  fetchReceipts : ℤ → Except String (List Receipt)
  lucaLogin : Except String String
  getTxs : String → Except String (List Tx)
  saveArchive : Payload → Except String SaveResp
  sendArchive : String → Except String String
  getUrl : String → Except String String

/-- The persistent state the sync cycle touches: the watermark setting and
the two tables. -/
structure DB where
  last_sync_epoch : ℤ
  orders : OrdersDB
  invoices : InvDB

/-- Loop state of the sync cycle (lines 450-452 plus the two tables). -/
structure CycleAcc where
  orders : OrdersDB
  invoices : InvDB
  max_updated : ℤ
  created : ℕ
  errs : ℕ

/-- Line 453: `st.get("auto_invoice","false").lower() == "true"`. -/
def autoOn (st : SettingsMap) : Bool :=
  pyLower (st.auto_invoice.getD "false") == "true"

/-- Lines 439-441: the effective since-cursor; the seeded sentinel `0`
becomes `now - 24*3600`. -/
def effectiveSince (now W : ℤ) : ℤ :=
  if W = 0 then now - 24 * 3600 else W

/-- Line 454: `token = luca_login(st) if auto_invoice else None`; a raised
login failure propagates. -/
def loginStep (auto : Bool) (login : Except String String) :
    Except String (Option String) :=
  if auto then login.map some else .ok Option.none

/-- The body of the per-order `try:` block (lines 460-473), threading the
loop state and stopping at the first raised exception, whose message is
returned. -/
def tryOrder (env : SyncEnv) (st : SettingsMap) (now : ℤ) (auto : Bool)
    (rc : Receipt) (acc : CycleAcc) : CycleAcc × Option String :=
  let rid := strOfOptInt rc.receipt_id
  let acc := { acc with orders := db_upsert_order st now rc acc.orders }
  if auto then
    match env.getTxs rid with
    | .error e => (acc, some e)
    | .ok txs =>
      match build_luca_payload st now rc txs with
      | .error e => (acc, some e)
      | .ok payload =>
        match env.saveArchive payload with
        | .error e => (acc, some e)
        | .ok saved =>
          let ettn := (strOr saved.Ettn (strOr saved.ETTN (some ""))).getD ""
          let invno := (strOr saved.InvoiceNumber (some "")).getD ""
          let createdFields : InvFields :=
            ⟨some ettn, some invno, none, some "CREATED", none⟩
          let acc := { acc with
            invoices := db_upsert_invoice rid createdFields now acc.invoices
            created := acc.created + 1 }
          if ettn = "" then (acc, none)
          else
            match env.sendArchive ettn with
            | .error e => (acc, some e)
            | .ok _ =>
              match env.getUrl ettn with
              | .error e => (acc, some e)
              | .ok url =>
                let sentFields : InvFields :=
                  ⟨some ettn, some invno, some url, some "SENT", none⟩
                ({ acc with invoices :=
                    db_upsert_invoice rid sentFields now acc.invoices }, none)
  else (acc, none)

/-- The per-order `try/except` (lines 460-476): on a raised exception the
error counter is bumped and an ERROR record upserted with `str(e)`. -/
def handleOrder (env : SyncEnv) (st : SettingsMap) (now : ℤ) (auto : Bool)
    (rc : Receipt) (acc : CycleAcc) : CycleAcc :=
  match tryOrder env st now auto rc acc with
  | (acc1, Option.none) => acc1
  | (acc1, some e) =>
      let errorFields : InvFields := ⟨none, none, none, some "ERROR", some e⟩
      { acc1 with
        errs := acc1.errs + 1
        invoices := db_upsert_invoice (strOfOptInt rc.receipt_id)
          errorFields now acc1.invoices }

/-- One iteration of the order loop (lines 456-476): update `max_updated`
(outside the `try:`), then run the guarded body. -/
def processOrder (env : SyncEnv) (st : SettingsMap) (now : ℤ) (auto : Bool)
    (rc : Receipt) (acc : CycleAcc) : CycleAcc :=
  handleOrder env st now auto rc
    { acc with max_updated := max acc.max_updated (receiptUpdated now rc) }

/-- `main.py` `sync_orders_and_maybe_invoice` (lines 435-480). The first
component is the returned triple `(orders_synced, invoices_created,
errors)`, or the message of a cycle-fatal exception; the second is the
persistent state when the call returns or the exception escapes. -/
def sync_orders_and_maybe_invoice (env : SyncEnv) (st : SettingsMap)
    (now : ℤ) (db : DB) : Except String (ℕ × ℕ × ℕ) × DB :=
  let last_sync := effectiveSince now db.last_sync_epoch
  match env.etsyToken with
  | .error e => (.error e, db)
  | .ok _ =>
  match env.fetchReceipts last_sync with
  | .error e => (.error e, db)
  | .ok receipts =>
  if receipts.isEmpty then
    (.ok (0, 0, 0), { db with last_sync_epoch := last_sync + 1 })
  else
    let auto := autoOn st
    match loginStep auto env.lucaLogin with
    | .error e => (.error e, db)
    | .ok _ =>
      let acc0 : CycleAcc := ⟨db.orders, db.invoices, last_sync, 0, 0⟩
      let acc := receipts.foldl (fun a rc => processOrder env st now auto rc a) acc0
      (.ok (receipts.length, acc.created, acc.errs),
       { last_sync_epoch := acc.max_updated + 1
         orders := acc.orders
         invoices := acc.invoices })

/-- The inputs of one scheduled cycle (settings are re-read each cycle;
the clock advances between cycles). -/
structure CycleInput where
  env : SyncEnv
  st : SettingsMap
  now : ℤ

/-- A sequence of sync cycles acting on the persistent state. -/
def runCycles (inputs : List CycleInput) (db : DB) : DB :=
  inputs.foldl (fun d i => (sync_orders_and_maybe_invoice i.env i.st i.now d).2) db

/-! ### Rounding lemmas -/

lemma round2_intCast_div (n : ℤ) : round2 ((n : ℚ) / 100) = (n : ℚ) / 100 := by
  have hx : ((n : ℚ) / 100) * 100 = (n : ℚ) :=
    div_mul_cancel₀ _ (by norm_num)
  unfold round2 round2Int
  simp only [hx, Int.floor_intCast, sub_self]
  norm_num

lemma twoDec_round2 (q : ℚ) : TwoDec (round2 q) := ⟨round2Int q, rfl⟩

lemma TwoDec.round2_eq {q : ℚ} (h : TwoDec q) : round2 q = q := by
  obtain ⟨n, rfl⟩ := h
  exact round2_intCast_div n

lemma twoDec_zero : TwoDec 0 := ⟨0, by norm_num⟩

lemma TwoDec.add {a b : ℚ} (ha : TwoDec a) (hb : TwoDec b) : TwoDec (a + b) := by
  obtain ⟨n, rfl⟩ := ha
  obtain ⟨m, rfl⟩ := hb
  exact ⟨n + m, by push_cast; ring⟩

lemma twoDec_sum {l : List ℚ} (h : ∀ x ∈ l, TwoDec x) : TwoDec l.sum := by
  induction l with
  | nil => simpa using twoDec_zero
  | cons a t ih =>
      rw [List.sum_cons]
      exact (h a (by simp)).add (ih fun x hx => h x (by simp [hx]))

/-- A structured money value always normalizes to a 2-fractional-digit
value. -/
lemma twoDec_money_dict (d : MoneyDict) :
    TwoDec (money_to_float (some (PyMoney.dict d))) := by
  simp only [money_to_float]
  exact twoDec_round2 _

/-- The `grandtotal or total_price` chain of a receipt never produces a
plain-number money value, so its normalization has 2 fractional digits. -/
lemma twoDec_receiptGrand (rc : Receipt) :
    TwoDec (money_to_float (receiptGrand rc)) := by
  unfold receiptGrand moneyOr
  rcases rc.grandtotal with _ | g <;> rcases rc.total_price with _ | t
  · exact twoDec_zero
  · simp only [Option.map_none', Option.map_some']
    exact twoDec_money_dict t
  · simp only [Option.map_none', Option.map_some']
    split
    · exact twoDec_money_dict g
    · exact twoDec_zero
  · simp only [Option.map_some']
    split
    · exact twoDec_money_dict g
    · exact twoDec_money_dict t

/-! ### List max lemmas -/

lemma le_foldl_max (l : List ℤ) (w : ℤ) : w ≤ l.foldl max w := by
  induction l generalizing w with
  | nil => simp
  | cons a t ih => exact le_trans (le_max_left w a) (ih (max w a))

lemma foldl_max_le {l : List ℤ} {T : ℤ} (w : ℤ) (hw : w ≤ T)
    (h : ∀ x ∈ l, x ≤ T) : l.foldl max w ≤ T := by
  induction l generalizing w with
  | nil => simpa using hw
  | cons a t ih =>
      exact ih (max w a) (max_le hw (h a (by simp)))
        (fun x hx => h x (by simp [hx]))

lemma mem_le_foldl_max {l : List ℤ} {T : ℤ} (w : ℤ) (hT : T ∈ l) :
    T ≤ l.foldl max w := by
  induction l generalizing w with
  | nil => cases hT
  | cons a t ih =>
      rcases List.mem_cons.mp hT with rfl | h
      · exact le_trans (le_max_right w T) (le_foldl_max t (max w T))
      · exact ih (max w a) h

lemma foldl_max_eq {l : List ℤ} {T : ℤ} (w : ℤ) (hT : T ∈ l)
    (hub : ∀ x ∈ l, x ≤ T) (hw : w ≤ T) : l.foldl max w = T :=
  le_antisymm (foldl_max_le w hw hub) (mem_le_foldl_max w hT)

/-! ### Sync-loop projection lemmas -/

lemma tryOrder_max (env : SyncEnv) (st : SettingsMap) (now : ℤ) (auto : Bool)
    (rc : Receipt) (acc : CycleAcc) :
    ((tryOrder env st now auto rc acc).1).max_updated = acc.max_updated := by
  unfold tryOrder
  dsimp only
  repeat' split
  all_goals rfl

lemma handleOrder_max (env : SyncEnv) (st : SettingsMap) (now : ℤ)
    (auto : Bool) (rc : Receipt) (acc : CycleAcc) :
    (handleOrder env st now auto rc acc).max_updated = acc.max_updated := by
  have h1 := tryOrder_max env st now auto rc acc
  unfold handleOrder
  rcases h : tryOrder env st now auto rc acc with ⟨acc1, err⟩
  rw [h] at h1
  rcases err with _ | e <;> simpa using h1

lemma processOrder_max (env : SyncEnv) (st : SettingsMap) (now : ℤ)
    (auto : Bool) (rc : Receipt) (acc : CycleAcc) :
    (processOrder env st now auto rc acc).max_updated =
      max acc.max_updated (receiptUpdated now rc) := by
  unfold processOrder
  rw [handleOrder_max]

lemma foldl_processOrder_max (env : SyncEnv) (st : SettingsMap) (now : ℤ)
    (auto : Bool) (l : List Receipt) (acc : CycleAcc) :
    (l.foldl (fun a rc => processOrder env st now auto rc a) acc).max_updated =
      (l.map (receiptUpdated now)).foldl max acc.max_updated := by
  induction l generalizing acc with
  | nil => rfl
  | cons rc t ih =>
      simp only [List.foldl_cons, List.map_cons]
      rw [ih, processOrder_max]

/-- One sync cycle never moves the watermark backwards (for clock values
after 1970-01-02, so that the sentinel substitution `now - 24h` is
non-negative), and keeps it non-negative. -/
lemma sync_watermark_step (env : SyncEnv) (st : SettingsMap) (now : ℤ)
    (db : DB) (h0 : 0 ≤ db.last_sync_epoch) (hnow : 86400 ≤ now) :
    db.last_sync_epoch ≤
      (sync_orders_and_maybe_invoice env st now db).2.last_sync_epoch ∧
    0 ≤ (sync_orders_and_maybe_invoice env st now db).2.last_sync_epoch := by
  have hes : db.last_sync_epoch ≤ effectiveSince now db.last_sync_epoch + 1 ∧
      0 ≤ effectiveSince now db.last_sync_epoch := by
    unfold effectiveSince
    split <;> omega
  unfold sync_orders_and_maybe_invoice
  rcases htok : env.etsyToken with e | t
  · simp only [htok]
    exact ⟨le_refl _, h0⟩
  simp only [htok]
  rcases hf : env.fetchReceipts (effectiveSince now db.last_sync_epoch)
    with e | receipts
  · simp only [hf]
    exact ⟨le_refl _, h0⟩
  simp only [hf]
  rcases hemp : receipts.isEmpty
  · simp only [hemp, Bool.false_eq_true, if_false]
    rcases hl : loginStep (autoOn st) env.lucaLogin with e | tok
    · simp only [hl]
      exact ⟨le_refl _, h0⟩
    · simp only [hl]
      rw [foldl_processOrder_max]
      dsimp only
      have hfold := le_foldl_max (receipts.map (receiptUpdated now))
        (effectiveSince now db.last_sync_epoch)
      constructor <;> omega
  · simp only [hemp, if_true]
    exact ⟨hes.1, by omega⟩

/-- Watermark monotonicity over any sequence of cycles. -/
lemma runCycles_watermark (inputs : List CycleInput) :
    ∀ db : DB, 0 ≤ db.last_sync_epoch → (∀ i ∈ inputs, 86400 ≤ i.now) →
      db.last_sync_epoch ≤ (runCycles inputs db).last_sync_epoch ∧
      0 ≤ (runCycles inputs db).last_sync_epoch := by
  induction inputs with
  | nil => exact fun db h0 _ => ⟨le_refl _, h0⟩
  | cons i t ih =>
      intro db h0 hn
      have hstep := sync_watermark_step i.env i.st i.now db h0 (hn i (by simp))
      have hrest := ih ((sync_orders_and_maybe_invoice i.env i.st i.now db).2)
        hstep.2 (fun j hj => hn j (by simp [hj]))
      unfold runCycles
      simp only [List.foldl_cons]
      exact ⟨le_trans hstep.1 hrest.1, hrest.2⟩

/-- Inversion of a successful mapping: both settings parsed and the
payload is `payloadOf` of the parsed values. -/
lemma build_eq_ok {st : SettingsMap} {now : ℤ} {rc : Receipt}
    {txs : List Tx} {p : Payload}
    (h : build_luca_payload st now rc txs = .ok p) :
    ∃ k c, kdvRate st = some k ∧ companyIdVal st = some c ∧
      p = payloadOf k c st now rc txs := by
  rcases hk : kdvRate st with _ | k <;> rcases hc : companyIdVal st with _ | c <;>
    simp [build_luca_payload, hk, hc] at h
  exact ⟨k, c, rfl, rfl, h.symm⟩

lemma payloadOf_products (k c : ℚ) (st : SettingsMap) (now : ℤ)
    (rc : Receipt) (txs : List Tx) :
    (payloadOf k c st now rc txs).products =
      if txs.isEmpty then
        [⟨"Etsy Order #" ++ strOfOptInt rc.receipt_id, 1,
          round2 (money_to_float (receiptGrand rc)), k,
          round2 (round2 (money_to_float (receiptGrand rc)) * k / 100),
          round2 (money_to_float (receiptGrand rc))⟩]
      else txs.map (lineOf k rc) := by
  unfold payloadOf
  dsimp only
  split <;> rfl

lemma payloadOf_net (k c : ℚ) (st : SettingsMap) (now : ℤ)
    (rc : Receipt) (txs : List Tx) :
    (payloadOf k c st now rc txs).totalLineExtensionAmount =
      if txs.isEmpty then round2 (money_to_float (receiptGrand rc))
      else ((txs.map (lineOf k rc)).map Line.lineExtensionAmount).sum := by
  unfold payloadOf
  dsimp only
  split <;> rfl

lemma payloadOf_vat (k c : ℚ) (st : SettingsMap) (now : ℤ)
    (rc : Receipt) (txs : List Tx) :
    (payloadOf k c st now rc txs).totalVATAmount =
      round2 ((payloadOf k c st now rc txs).totalLineExtensionAmount * k / 100) :=
  rfl

lemma payloadOf_gross (k c : ℚ) (st : SettingsMap) (now : ℤ)
    (rc : Receipt) (txs : List Tx) :
    (payloadOf k c st now rc txs).totalTaxInclusiveAmount =
      round2 ((payloadOf k c st now rc txs).totalLineExtensionAmount +
        (payloadOf k c st now rc txs).totalVATAmount) :=
  rfl

lemma twoDec_payload_net (k c : ℚ) (st : SettingsMap) (now : ℤ)
    (rc : Receipt) (txs : List Tx) :
    TwoDec ((payloadOf k c st now rc txs).totalLineExtensionAmount) := by
  rw [payloadOf_net]
  split
  · exact twoDec_round2 _
  · refine twoDec_sum ?_
    intro x hx
    obtain ⟨l, hl, rfl⟩ := List.mem_map.mp hx
    obtain ⟨t, ht, rfl⟩ := List.mem_map.mp hl
    exact twoDec_round2 _

/-- The order-level gross is exactly net + tax: the extra `round` at
line 270 is the identity because both summands already have two
fractional digits. -/
lemma payloadOf_gross_eq (k c : ℚ) (st : SettingsMap) (now : ℤ)
    (rc : Receipt) (txs : List Tx) :
    (payloadOf k c st now rc txs).totalTaxInclusiveAmount =
      (payloadOf k c st now rc txs).totalLineExtensionAmount +
        (payloadOf k c st now rc txs).totalVATAmount := by
  rw [payloadOf_gross]
  exact TwoDec.add (twoDec_payload_net k c st now rc txs)
    (by rw [payloadOf_vat]; exact twoDec_round2 _) |>.round2_eq

/-! ### Concrete fixtures -/

/-- A receipt with every key absent. -/
def rBlank : Receipt :=
  { receipt_id := none, name := none, buyer_email := none, phone := none
    first_line := none, city := none, state := none, zip := none
    country_name := none, country_iso := none
    grandtotal := none, total_price := none, status := none
    updated_timestamp := none, last_modified_tsz := none
    created_timestamp := none, seller_user_id := none }

/-- Empty persistent state with the seeded watermark `'0'` of `db_init`
(line 78). -/
def dbEmpty : DB := ⟨0, fun _ => none, fun _ => none⟩

/-! ### C2 -/

/-- A stored invoice row as the send-invoice flow leaves it after create:
ETTN and invoice number present. -/
def invRowC2 : InvRow :=
  ⟨"R1", some "E1", some "N1", none, some "CREATED", none, 100, 100⟩

def invDbC2 : InvDB := fun k => if k = "R1" then some invRowC2 else none

/-- The keyword arguments of the `db_upsert_invoice` call in
`send_invoice` (line 610): only `status` and `url`. -/
def sendFieldsC2 : InvFields := ⟨none, none, some "http://u", some "SENT", none⟩

/-- C2: the claim is false on the code and the partial-update spec is the
evident intent: upserting an existing record with only `status` and `url`
(exactly the send-invoice call) sets the stored `ettn` and
`invoice_number` to NULL instead of keeping `"E1"` and `"N1"`. -/
theorem C2_partial_update_bug :
    ((db_upsert_invoice "R1" sendFieldsC2 200 invDbC2) "R1").map
        (fun r => (r.ettn, r.invoice_number, r.url, r.status, r.error)) =
      some (none, none, some "http://u", some "SENT", none) ∧
    invRowC2.ettn = some "E1" ∧ invRowC2.invoice_number = some "N1" ∧
    (Option.none : Option String) ≠ some "E1" := by
  refine ⟨?_, rfl, rfl, by simp⟩
  rfl

/-! ### C6 -/

/-- C6 counterexample: a plain numeric input (Python `float`/`int`) is
returned unchanged by `money_to_float`, so the returned value is not in
general rounded to 2 fractional digits: `1.234` comes back as `1.234`. -/
theorem C6_counterexample :
    money_to_float (some (PyMoney.num (1234/1000))) = 1234/1000 ∧
    ¬ TwoDec (money_to_float (some (PyMoney.num (1234/1000)))) ∧
    round2 (1234/1000) ≠ (1234/1000 : ℚ) := by
  have hr : round2 (1234/1000) ≠ (1234/1000 : ℚ) := by
    norm_num [round2, round2Int]
  refine ⟨rfl, ?_, hr⟩
  intro h
  exact hr h.round2_eq

/-- C6 (amended): null yields 0; a structured input yields
`round(amount/divisor, 2)` with divisor 0/absent defaulting to 100, and
such results always have two fractional digits; but a plain numeric input
is returned unchanged, not rounded. The claimed examples hold. -/
theorem C6_money_normalizer :
    money_to_float Option.none = 0 ∧
    (∀ x : ℚ, money_to_float (some (PyMoney.num x)) = x) ∧
    (∀ d : MoneyDict, money_to_float (some (PyMoney.dict d)) =
      round2 ((d.amount.getD 0) /
        (if d.divisor.getD 100 = 0 then 100 else d.divisor.getD 100))) ∧
    (∀ d : MoneyDict, TwoDec (money_to_float (some (PyMoney.dict d)))) ∧
    money_to_float (some (PyMoney.dict ⟨some 1234, some 100, none⟩)) = 1234/100 ∧
    money_to_float (some (PyMoney.dict ⟨some 500, none, none⟩)) = 5 := by
  refine ⟨rfl, fun x => rfl, fun d => rfl, twoDec_money_dict, ?_, ?_⟩
  · show round2 ((1234 : ℚ) / 100) = 1234 / 100
    have := round2_intCast_div 1234
    push_cast at this
    simpa using this
  · show round2 ((500 : ℚ) / 100) = 5
    have := round2_intCast_div 500
    push_cast at this
    rw [this]
    norm_num

/-! ### C10 -/

/-- C10: re-upserting an order whose `receipt_id` already has a stored row
overwrites `buyer_name`, `total`, `currency`, `status`, `updated_epoch`,
`raw_json` and `updated_at` with the freshly computed values, while the
stored `receipt_id` and the `created_at` of the first insert survive. -/
theorem C10_order_reupsert (st : SettingsMap) (now : ℤ) (rcpt : Receipt)
    (db : OrdersDB) (old : OrderRow)
    (h : db (strOfOptInt rcpt.receipt_id) = some old) :
    (db_upsert_order st now rcpt db) (strOfOptInt rcpt.receipt_id) =
      some { orderRowOf st now rcpt with
             receipt_id := old.receipt_id
             created_at := old.created_at } := by
  unfold db_upsert_order
  simp only [h, if_pos rfl]
  rfl

/-- The orders table and receipts used to witness C10. -/
def oldRowC10 : OrderRow :=
  ⟨"7", "Old Name", 0, "TRY", "OLD", 1, rBlank, 100, 100⟩

def ordersDbC10 : OrdersDB := fun k => if k = "7" then some oldRowC10 else none

def rcptC10 : Receipt :=
  { rBlank with
    receipt_id := some 7
    name := some " Bob "
    status := some "paid"
    updated_timestamp := some 400 }

def stC10 : SettingsMap := ⟨some "0", some "TRY", some "1", some "false"⟩

theorem C10_order_reupsert_witness :
    ordersDbC10 "7" = some oldRowC10 ∧
    ((db_upsert_order stC10 200 rcptC10 ordersDbC10) "7").map
        (fun r => (r.receipt_id, r.buyer_name, r.status, r.updated_epoch,
                   r.created_at, r.updated_at)) =
      some ("7", "Bob", "PAID", 400, 100, 200) := by
  have h := C10_order_reupsert stC10 200 rcptC10 ordersDbC10 oldRowC10 rfl
  refine ⟨rfl, ?_⟩
  have hkey : strOfOptInt rcptC10.receipt_id = "7" := rfl
  rw [hkey] at h
  rw [h]
  rfl

/-! ### C8 -/

/-- Settings with an empty company id, as the claim explicitly allows. -/
def stC8 : SettingsMap := ⟨some "0", none, some "", some "false"⟩

/-- C8 counterexample: with an empty `luca_company_id` setting the mapper
raises (`float("")` at line 281 is a ValueError), so the mapping does not
complete for every settings map. -/
theorem C8_counterexample :
    build_luca_payload stC8 0 rBlank [] = .error "ValueError: luca_company_id" :=
  rfl

/-- C8 (amended): provided the tax-rate setting (empty defaulting to "0")
and the company id both parse as numbers, the mapper completes without
raising for every receipt and line-item list: all missing remote fields
degrade to empty strings or zeros. -/
theorem C8_mapper_total (st : SettingsMap) (now : ℤ) (rc : Receipt)
    (txs : List Tx) (hk : (kdvRate st).isSome) (hc : (companyIdVal st).isSome) :
    ∃ p, build_luca_payload st now rc txs = .ok p := by
  obtain ⟨k, hk'⟩ := Option.isSome_iff_exists.mp hk
  obtain ⟨c, hc'⟩ := Option.isSome_iff_exists.mp hc
  exact ⟨payloadOf k c st now rc txs, by simp [build_luca_payload, hk', hc']⟩

def stC8w : SettingsMap := ⟨none, none, some "77", some "true"⟩

theorem C8_mapper_total_witness :
    ((kdvRate stC8w).isSome = true ∧ (companyIdVal stC8w).isSome = true) ∧
    ∃ p, build_luca_payload stC8w 5 rBlank [] = .ok p :=
  ⟨⟨rfl, rfl⟩, C8_mapper_total stC8w 5 rBlank [] rfl rfl⟩

/-! ### C7 -/

/-- The payload a successful mapping produced (`default` is never hit when
the mapping succeeded). -/
def payloadD (st : SettingsMap) (now : ℤ) (rc : Receipt) (txs : List Tx) :
    Payload :=
  ((build_luca_payload st now rc txs).toOption).getD default

/-- C7: for a receipt with an empty transaction list, a successful mapping
produces exactly one synthetic line item with quantity 1 whose unit price
is the receipt's normalized grand total (grandtotal, falling back to
total_price), and that value is also the payload's total net. -/
theorem C7_empty_txs_synthetic_line (st : SettingsMap) (now : ℤ)
    (rc : Receipt) (p : Payload)
    (h : build_luca_payload st now rc [] = .ok p) :
    p.products.length = 1 ∧
    (∀ l ∈ p.products,
        l.quantity = 1 ∧ l.unitPrice = money_to_float (receiptGrand rc)) ∧
    p.totalLineExtensionAmount = money_to_float (receiptGrand rc) := by
  obtain ⟨k, c, hk, hc, rfl⟩ := build_eq_ok h
  have hid : round2 (money_to_float (receiptGrand rc)) =
      money_to_float (receiptGrand rc) :=
    (twoDec_receiptGrand rc).round2_eq
  refine ⟨?_, ?_, ?_⟩
  · rw [payloadOf_products]
    rfl
  · intro l hl
    rw [payloadOf_products] at hl
    simp only [List.isEmpty_nil, if_true, List.mem_singleton] at hl
    subst hl
    exact ⟨rfl, hid⟩
  · rw [payloadOf_net]
    simp only [List.isEmpty_nil, if_true]
    exact hid

def rcC7 : Receipt :=
  { rBlank with
    receipt_id := some 9
    grandtotal := some ⟨some 4200, some 100, some "USD"⟩ }

def stC7 : SettingsMap := ⟨some "18", some "TRY", some "77", some "false"⟩

theorem C7_empty_txs_synthetic_line_witness :
    build_luca_payload stC7 3 rcC7 [] = .ok (payloadD stC7 3 rcC7 []) ∧
    (payloadD stC7 3 rcC7 []).products.length = 1 ∧
    (∀ l ∈ (payloadD stC7 3 rcC7 []).products,
        l.quantity = 1 ∧ l.unitPrice = money_to_float (receiptGrand rcC7)) ∧
    money_to_float (receiptGrand rcC7) = 42 := by
  have hb : build_luca_payload stC7 3 rcC7 [] = .ok (payloadD stC7 3 rcC7 []) :=
    rfl
  have h := C7_empty_txs_synthetic_line stC7 3 rcC7 _ hb
  refine ⟨hb, h.1, h.2.1, ?_⟩
  have hg : money_to_float (receiptGrand rcC7) = round2 ((4200 : ℚ) / 100) := by
    simp [receiptGrand, rcC7, rBlank, moneyOr, PyMoney.truthy, money_to_float]
  rw [hg]
  norm_num [round2, round2Int]

/-! ### C5 -/

lemma lineOf_net (k : ℚ) (rc : Receipt) (t : Tx) :
    (lineOf k rc t).lineExtensionAmount =
      round2 ((t.quantity.getD 1) * money_to_float
        (moneyOr t.price (moneyOr t.amount_paid (rc.total_price.map PyMoney.dict)))) :=
  rfl

lemma money_to_float_dict (a d : Option ℚ) (cc : Option String) :
    money_to_float (some (PyMoney.dict ⟨a, d, cc⟩)) =
      round2 ((a.getD 0) / (if d.getD 100 = 0 then 100 else d.getD 100)) :=
  rfl

/-- C5: for a mapped receipt with a non-empty line-item list and parsed
tax rate `r`, every line's net is `round(quantity × unit_price, 2)`, the
payload's total net is the sum of the line nets, the total tax is
recomputed from the total net as `round(total_net × r/100, 2)` (not summed
from the per-line tax amounts), and the total gross is exactly
`total_net + total_tax`. -/
theorem C5_payload_totals (st : SettingsMap) (now : ℤ) (rc : Receipt)
    (txs : List Tx) (r : ℚ) (p : Payload) (htxs : txs ≠ [])
    (hk : kdvRate st = some r)
    (h : build_luca_payload st now rc txs = .ok p) :
    (∀ l ∈ p.products, l.lineExtensionAmount = round2 (l.quantity * l.unitPrice)) ∧
    p.totalLineExtensionAmount = (p.products.map Line.lineExtensionAmount).sum ∧
    p.totalVATAmount = round2 (p.totalLineExtensionAmount * r / 100) ∧
    p.totalTaxInclusiveAmount = p.totalLineExtensionAmount + p.totalVATAmount := by
  obtain ⟨k, c, hk', hc, rfl⟩ := build_eq_ok h
  have hkr : k = r := Option.some_inj.mp (hk'.symm.trans hk)
  subst hkr
  have hne : txs.isEmpty = false := by
    cases txs
    · exact absurd rfl htxs
    · rfl
  refine ⟨?_, ?_, payloadOf_vat k c st now rc txs, payloadOf_gross_eq k c st now rc txs⟩
  · intro l hl
    rw [payloadOf_products] at hl
    simp only [hne, Bool.false_eq_true, if_false] at hl
    obtain ⟨t, ht, rfl⟩ := List.mem_map.mp hl
    rfl
  · rw [payloadOf_net, payloadOf_products]
    simp only [hne, Bool.false_eq_true, if_false]

def tx1C5 : Tx :=
  { quantity := some 2, price := some (.dict ⟨some 1000, some 100, none⟩)
    amount_paid := none, title := some "A", transaction_id := some 11 }

def tx2C5 : Tx :=
  { quantity := some 1, price := some (.dict ⟨some 500, some 100, none⟩)
    amount_paid := none, title := some "B", transaction_id := some 12 }

def stC5 : SettingsMap := ⟨some "18", some "TRY", some "77", some "false"⟩

theorem C5_payload_totals_witness :
    (([tx1C5, tx2C5] : List Tx) ≠ [] ∧ kdvRate stC5 = some 18 ∧
      build_luca_payload stC5 7 rBlank [tx1C5, tx2C5] =
        .ok (payloadD stC5 7 rBlank [tx1C5, tx2C5])) ∧
    (payloadD stC5 7 rBlank [tx1C5, tx2C5]).totalVATAmount =
      round2 ((payloadD stC5 7 rBlank [tx1C5, tx2C5]).totalLineExtensionAmount * 18 / 100) ∧
    (payloadD stC5 7 rBlank [tx1C5, tx2C5]).totalTaxInclusiveAmount =
      (payloadD stC5 7 rBlank [tx1C5, tx2C5]).totalLineExtensionAmount +
        (payloadD stC5 7 rBlank [tx1C5, tx2C5]).totalVATAmount ∧
    (payloadD stC5 7 rBlank [tx1C5, tx2C5]).totalLineExtensionAmount = 25 ∧
    (payloadD stC5 7 rBlank [tx1C5, tx2C5]).totalVATAmount = 9/2 ∧
    (payloadD stC5 7 rBlank [tx1C5, tx2C5]).totalTaxInclusiveAmount = 59/2 := by
  have hk0 : kdvRate stC5 = some ((1 : ℚ) * ((18 : ℕ) : ℚ)) := rfl
  have hk : kdvRate stC5 = some 18 := by
    rw [hk0]
    norm_num
  have hc0 : companyIdVal stC5 = some ((1 : ℚ) * ((77 : ℕ) : ℚ)) := rfl
  have hc : companyIdVal stC5 = some 77 := by
    rw [hc0]
    norm_num
  have hb : build_luca_payload stC5 7 rBlank [tx1C5, tx2C5] =
      .ok (payloadD stC5 7 rBlank [tx1C5, tx2C5]) := rfl
  have hb2 : build_luca_payload stC5 7 rBlank [tx1C5, tx2C5] =
      .ok (payloadOf 18 77 stC5 7 rBlank [tx1C5, tx2C5]) := by
    simp [build_luca_payload, hk, hc]
  have hpd : payloadD stC5 7 rBlank [tx1C5, tx2C5] =
      payloadOf 18 77 stC5 7 rBlank [tx1C5, tx2C5] := by
    rw [payloadD, hb2]
    rfl
  have h := C5_payload_totals stC5 7 rBlank [tx1C5, tx2C5] 18 _ (by simp) hk hb
  have hnet : (payloadD stC5 7 rBlank [tx1C5, tx2C5]).totalLineExtensionAmount = 25 := by
    rw [hpd, payloadOf_net]
    simp [lineOf_net, tx1C5, tx2C5, rBlank, moneyOr, PyMoney.truthy, money_to_float]
    norm_num [round2, round2Int]
  have hvat : (payloadD stC5 7 rBlank [tx1C5, tx2C5]).totalVATAmount = 9/2 := by
    have := h.2.2.1
    rw [this, hnet]
    norm_num [round2, round2Int]
  refine ⟨⟨by simp, hk, hb⟩, h.2.2.1, h.2.2.2, hnet, hvat, ?_⟩
  rw [h.2.2.2, hnet, hvat]
  norm_num

/-! ### C9 -/

/-- C9: a failed marketplace token exchange, or (with auto-invoice on and
a non-empty fetched batch, so that the login is actually attempted) a
failed invoicing-provider login, aborts the cycle with the raised message
and leaves the entire persistent state — watermark, orders, invoices —
exactly as it was at the start of the cycle. -/
theorem C9_auth_failure_aborts :
    (∀ (env : SyncEnv) (st : SettingsMap) (now : ℤ) (db : DB) (e : String),
        env.etsyToken = .error e →
        sync_orders_and_maybe_invoice env st now db = (.error e, db)) ∧
    (∀ (env : SyncEnv) (st : SettingsMap) (now : ℤ) (db : DB) (e t : String)
        (receipts : List Receipt),
        env.etsyToken = .ok t →
        env.fetchReceipts (effectiveSince now db.last_sync_epoch) = .ok receipts →
        receipts ≠ [] →
        autoOn st = true →
        env.lucaLogin = .error e →
        sync_orders_and_maybe_invoice env st now db = (.error e, db)) := by
  constructor
  · intro env st now db e h
    simp [sync_orders_and_maybe_invoice, h]
  · intro env st now db e t receipts ht hf hne ha hl
    have hemp : receipts.isEmpty = false := by
      cases receipts
      · exact absurd rfl hne
      · rfl
    simp [sync_orders_and_maybe_invoice, ht, hf, hemp, loginStep, ha, hl, Except.map]

def envC9a : SyncEnv :=
  { etsyToken := .error "boom"
    fetchReceipts := fun _ => .ok []
    lucaLogin := .ok "l"
    getTxs := fun _ => .ok []
    saveArchive := fun _ => .ok ⟨none, none, none⟩
    sendArchive := fun _ => .ok ""
    getUrl := fun _ => .ok "" }

def rcC9 : Receipt :=
  { rBlank with receipt_id := some 4, updated_timestamp := some 60 }

def envC9b : SyncEnv :=
  { envC9a with
    etsyToken := .ok "t"
    lucaLogin := .error "login-fail"
    fetchReceipts := fun _ => .ok [rcC9] }

def stAutoC9 : SettingsMap := ⟨some "0", some "TRY", some "1", some "true"⟩

def dbC9 : DB := ⟨50, fun _ => none, fun _ => none⟩

theorem C9_auth_failure_aborts_witness :
    (envC9a.etsyToken = .error "boom" ∧
      sync_orders_and_maybe_invoice envC9a stAutoC9 1000 dbC9 =
        (.error "boom", dbC9)) ∧
    (envC9b.lucaLogin = .error "login-fail" ∧ autoOn stAutoC9 = true ∧
      sync_orders_and_maybe_invoice envC9b stAutoC9 1000 dbC9 =
        (.error "login-fail", dbC9)) := by
  refine ⟨⟨rfl, C9_auth_failure_aborts.1 envC9a stAutoC9 1000 dbC9 "boom" rfl⟩,
    rfl, rfl,
    C9_auth_failure_aborts.2 envC9b stAutoC9 1000 dbC9 "login-fail" "t"
      [rcC9] rfl rfl (by simp) rfl rfl⟩

/-! ### C4 -/

def envC4 : SyncEnv :=
  { etsyToken := .ok "t"
    fetchReceipts := fun _ => .ok []
    lucaLogin := .ok "l"
    getTxs := fun _ => .ok []
    saveArchive := fun _ => .ok ⟨none, none, none⟩
    sendArchive := fun _ => .ok ""
    getUrl := fun _ => .ok "" }

def stOff : SettingsMap := ⟨some "0", some "TRY", some "1", some "false"⟩

/-- C4 counterexample: on the seeded initial watermark `W = 0` an
empty-fetch cycle does not store `W + 1 = 1`: line 441 first replaces the
sentinel by `now - 24*3600`, so at `now = 100000` the stored watermark is
`13601`. -/
theorem C4_counterexample :
    dbEmpty.last_sync_epoch = 0 ∧
    (sync_orders_and_maybe_invoice envC4 stOff 100000 dbEmpty).1 =
      .ok (0, 0, 0) ∧
    (sync_orders_and_maybe_invoice envC4 stOff 100000 dbEmpty).2.last_sync_epoch
      = 13601 ∧
    (13601 : ℤ) ≠ 0 + 1 := by
  refine ⟨rfl, rfl, rfl, by norm_num⟩

/-- C4 (amended): for a cycle starting at a non-sentinel watermark
`W ≠ 0`, an empty fetch returns the counts `(0, 0, 0)`, stores exactly
`W + 1`, and leaves the order and invoice tables untouched; no invoicing
work happens (the conclusion holds for every oracle, in particular when
every invoicing call would fail). When `W = 0` the stored value is
`(now - 86400) + 1` instead. -/
theorem C4_empty_batch (env : SyncEnv) (st : SettingsMap) (now : ℤ) (db : DB)
    (t : String) (h0 : db.last_sync_epoch ≠ 0)
    (ht : env.etsyToken = .ok t)
    (hf : env.fetchReceipts db.last_sync_epoch = .ok []) :
    (sync_orders_and_maybe_invoice env st now db).1 = .ok (0, 0, 0) ∧
    (sync_orders_and_maybe_invoice env st now db).2.last_sync_epoch =
      db.last_sync_epoch + 1 ∧
    (sync_orders_and_maybe_invoice env st now db).2.orders = db.orders ∧
    (sync_orders_and_maybe_invoice env st now db).2.invoices = db.invoices := by
  have he : effectiveSince now db.last_sync_epoch = db.last_sync_epoch :=
    if_neg h0
  simp [sync_orders_and_maybe_invoice, he, ht, hf]

def dbC4w : DB := ⟨50, fun _ => none, fun _ => none⟩

theorem C4_empty_batch_witness :
    dbC4w.last_sync_epoch ≠ 0 ∧
    (sync_orders_and_maybe_invoice envC4 stOff 777 dbC4w).1 = .ok (0, 0, 0) ∧
    (sync_orders_and_maybe_invoice envC4 stOff 777 dbC4w).2.last_sync_epoch = 51 := by
  have h50 : dbC4w.last_sync_epoch = 50 := rfl
  have h := C4_empty_batch envC4 stOff 777 dbC4w "t" (by rw [h50]; norm_num) rfl rfl
  refine ⟨by rw [h50]; norm_num, h.1, ?_⟩
  rw [h.2.1, h50]
  norm_num

/-! ### C1 -/

def rcC1 : Receipt :=
  { rBlank with receipt_id := some 3, updated_timestamp := some 5 }

def envC1 : SyncEnv := { envC4 with fetchReceipts := fun _ => .ok [rcC1] }

/-- C1 counterexample: from the seeded watermark `W = 0`, a non-empty
batch whose single order has update-time `5 ≥ W` (so the claimed maximum
is `T = 5`) does not store `T + 1 = 6`: line 441 first replaces the
sentinel by `now - 24*3600 = 13600`, and line 479 stores
`max(13600, 5) + 1 = 13601`. -/
theorem C1_counterexample :
    dbEmpty.last_sync_epoch = 0 ∧
    receiptUpdated 100000 rcC1 = 5 ∧
    (∀ rc ∈ [rcC1], dbEmpty.last_sync_epoch ≤ receiptUpdated 100000 rc) ∧
    (sync_orders_and_maybe_invoice envC1 stOff 100000 dbEmpty).2.last_sync_epoch
      = 13601 ∧
    (13601 : ℤ) ≠ 5 + 1 := by
  refine ⟨rfl, rfl, ?_, ?_, by norm_num⟩
  · intro rc hrc
    simp only [List.mem_singleton] at hrc
    subst hrc
    show (0 : ℤ) ≤ 5
    norm_num
  · rfl

/-- C1 (amended): (a) for a cycle that starts at a positive (non-sentinel)
watermark `W`, authenticates, and fetches a non-empty batch all of whose
update-times are `≥ W` with maximum `T`, the stored watermark is exactly
`T + 1`, regardless of how many per-order errors the oracle produces;
(b) across any sequence of cycles run at clock values `≥ 86400` from a
non-negative watermark, the stored watermark is non-decreasing. (From the
sentinel `W = 0` the cycle instead stores `max(now - 86400, T) + 1`.) -/
theorem C1_watermark :
    (∀ (env : SyncEnv) (st : SettingsMap) (now : ℤ) (db : DB)
        (receipts : List Receipt) (T : ℤ) (t : String) (lg : Option String),
        0 < db.last_sync_epoch →
        env.etsyToken = .ok t →
        env.fetchReceipts db.last_sync_epoch = .ok receipts →
        receipts ≠ [] →
        loginStep (autoOn st) env.lucaLogin = .ok lg →
        (∀ rc ∈ receipts, db.last_sync_epoch ≤ receiptUpdated now rc) →
        T ∈ receipts.map (receiptUpdated now) →
        (∀ u ∈ receipts.map (receiptUpdated now), u ≤ T) →
        (sync_orders_and_maybe_invoice env st now db).2.last_sync_epoch = T + 1) ∧
    (∀ (inputs : List CycleInput) (db : DB),
        0 ≤ db.last_sync_epoch →
        (∀ i ∈ inputs, 86400 ≤ i.now) →
        db.last_sync_epoch ≤ (runCycles inputs db).last_sync_epoch) := by
  constructor
  · intro env st now db receipts T t lg h0 ht hf hne hl hall hmem hub
    have he : effectiveSince now db.last_sync_epoch = db.last_sync_epoch :=
      if_neg (by omega)
    have hemp : receipts.isEmpty = false := by
      cases receipts
      · exact absurd rfl hne
      · rfl
    have hTW : db.last_sync_epoch ≤ T := by
      obtain ⟨rc, hrc, rfl⟩ := List.mem_map.mp hmem
      exact hall rc hrc
    simp only [sync_orders_and_maybe_invoice, he, ht, hf, hemp,
      Bool.false_eq_true, if_false, hl]
    rw [foldl_processOrder_max]
    dsimp only
    rw [foldl_max_eq db.last_sync_epoch hmem hub hTW]
  · intro inputs db h0 hn
    exact (runCycles_watermark inputs db h0 hn).1

def rcW1 : Receipt :=
  { rBlank with receipt_id := some 8, updated_timestamp := some 60 }

def envW1 : SyncEnv := { envC4 with fetchReceipts := fun _ => .ok [rcW1] }

def dbW1 : DB := ⟨50, fun _ => none, fun _ => none⟩

theorem C1_watermark_witness :
    ((0 : ℤ) < dbW1.last_sync_epoch ∧
      (sync_orders_and_maybe_invoice envW1 stOff 777 dbW1).2.last_sync_epoch =
        60 + 1) ∧
    dbW1.last_sync_epoch ≤
      (runCycles [⟨envW1, stOff, 100000⟩] dbW1).last_sync_epoch := by
  have h50 : dbW1.last_sync_epoch = 50 := rfl
  constructor
  · refine ⟨by rw [h50]; norm_num, ?_⟩
    refine C1_watermark.1 envW1 stOff 777 dbW1 [rcW1] 60 "t" Option.none
      (by rw [h50]; norm_num) rfl rfl (by simp) rfl ?_ ?_ ?_
    · intro rc hrc
      simp only [List.mem_singleton] at hrc
      subst hrc
      rw [h50]
      show (50 : ℤ) ≤ 60
      norm_num
    · show (60 : ℤ) ∈ [(60 : ℤ)]
      simp
    · intro u hu
      have hu' : u = 60 := by
        simpa using hu
      omega
  · exact C1_watermark.2 [⟨envW1, stOff, 100000⟩] dbW1
      (by rw [h50]; norm_num)
      (by
        intro i hi
        simp only [List.mem_singleton] at hi
        subst hi
        show (86400 : ℤ) ≤ 100000
        norm_num)

/-! ### C3 -/

def rc1C3 : Receipt :=
  { rBlank with
    receipt_id := some 1
    updated_timestamp := some 1000
    grandtotal := some ⟨some 1000, some 100, some "USD"⟩ }

def rc2C3 : Receipt :=
  { rBlank with
    receipt_id := some 2
    updated_timestamp := some 2000
    grandtotal := some ⟨some 500, some 100, some "USD"⟩ }

def rc3C3 : Receipt :=
  { rBlank with
    receipt_id := some 3
    updated_timestamp := some 3000
    grandtotal := some ⟨some 700, some 100, some "USD"⟩ }

def stC3 : SettingsMap := ⟨some "18", some "TRY", some "77", some "true"⟩

/-- Oracle for the C3 scenario: everything succeeds except the
save-archive call for order 2, which raises `"boom"`. -/
def envC3 : SyncEnv :=
  { etsyToken := .ok "t"
    fetchReceipts := fun _ => .ok [rc1C3, rc2C3, rc3C3]
    lucaLogin := .ok "l"
    getTxs := fun _ => .ok []
    saveArchive := fun p =>
      if p.idFaturaExternal = "2" then .error "boom"
      else .ok ⟨some ("E" ++ p.idFaturaExternal), none, some "INV"⟩
    sendArchive := fun _ => .ok "sent"
    getUrl := fun e => .ok ("http://doc/" ++ e) }

def resC3 : Except String (ℕ × ℕ × ℕ) × DB :=
  sync_orders_and_maybe_invoice envC3 stC3 5000 dbEmpty

/-- C3: a raised exception while processing one order is caught: the error
counter grows by exactly one and an ERROR record with the exception's
message is written for that order, and the loop continues (first
conjunct, for any oracle and order). In the concrete 3-order auto-invoice
batch where only order 2's save call raises `"boom"`, the cycle returns
`(3, 2, 1)`, orders 1 and 3 end SENT with their document URLs, and order
2 ends ERROR with the non-empty message `"boom"`. -/
theorem C3_error_isolation :
    (∀ (env : SyncEnv) (st : SettingsMap) (now : ℤ) (auto : Bool)
        (rc : Receipt) (acc : CycleAcc) (e : String),
        (tryOrder env st now auto rc acc).2 = some e →
        (handleOrder env st now auto rc acc).errs =
          (tryOrder env st now auto rc acc).1.errs + 1 ∧
        ((handleOrder env st now auto rc acc).invoices
            (strOfOptInt rc.receipt_id)).map (fun r => (r.status, r.error)) =
          some (some "ERROR", some e)) ∧
    resC3.1 = .ok (3, 2, 1) ∧
    (resC3.2.invoices "1").map (fun r => (r.status, r.url, r.error)) =
      some (some "SENT", some "http://doc/E1", none) ∧
    (resC3.2.invoices "2").map (fun r => (r.status, r.error)) =
      some (some "ERROR", some "boom") ∧
    (resC3.2.invoices "3").map (fun r => (r.status, r.url, r.error)) =
      some (some "SENT", some "http://doc/E3", none) ∧
    "boom" ≠ "" := by
  refine ⟨?_, rfl, rfl, rfl, rfl, by simp⟩
  intro env st now auto rc acc e h
  unfold handleOrder
  rcases h' : tryOrder env st now auto rc acc with ⟨acc1, err⟩
  rw [h'] at h
  dsimp only at h
  subst h
  dsimp only
  refine ⟨rfl, ?_⟩
  rcases hinv : acc1.invoices (strOfOptInt rc.receipt_id) with _ | old <;>
    simp [db_upsert_invoice, hinv, strOr]

def accC3 : CycleAcc := ⟨fun _ => none, fun _ => none, 0, 0, 0⟩

theorem C3_error_isolation_witness :
    (tryOrder envC3 stC3 5000 true rc2C3 accC3).2 = some "boom" ∧
    (handleOrder envC3 stC3 5000 true rc2C3 accC3).errs =
      (tryOrder envC3 stC3 5000 true rc2C3 accC3).1.errs + 1 ∧
    ((handleOrder envC3 stC3 5000 true rc2C3 accC3).invoices "2").map
      (fun r => (r.status, r.error)) = some (some "ERROR", some "boom") := by
  have h : (tryOrder envC3 stC3 5000 true rc2C3 accC3).2 = some "boom" := rfl
  have hg := C3_error_isolation.1 envC3 stC3 5000 true rc2C3 accC3 "boom" h
  refine ⟨h, hg.1, ?_⟩
  have hid : strOfOptInt rc2C3.receipt_id = "2" := rfl
  have := hg.2
  rwa [hid] at this

end EtsyLuca
